import Mathlib

/-!
Verification of the "Orthographic Scale" Blender add-on
(`src/camera_ortho_scale.py`).

The add-on adjusts an orthographic camera's `ortho_scale` while the user
drags the mouse, translating the camera so that the 3D cursor stays
visually anchored.  We embed the relevant code shallowly:

* floats become exact rationals (`ℚ`);
* `mathutils.Matrix` (4x4) becomes `Matrix (Fin 4) (Fin 4) ℚ`;
* Blender's mutable camera object becomes a `Camera` record, mutation
  becomes returning an updated record;
* the modal operator becomes a step function
  `modal : Context → OperatorState → Event → OperatorState × ModalResult`.
-/

/-! ## Data model -/

/-- 4x4 rational matrices, standing for Blender's `mathutils.Matrix`. -/
abbrev Mat4 : Type := Matrix (Fin 4) (Fin 4) ℚ

/-- `mathutils.Matrix.Translation((x, y, z))`: the identity matrix with
`(x, y, z)` in the last column. -/
def Translation (x y z : ℚ) : Mat4 :=
  Matrix.of fun i j =>
    if i = j then 1 else if j = (3 : Fin 4) then ![x, y, z, 0] i else 0

/-- Computable matrix inverse over `ℚ`, standing for
`mathutils.Matrix.inverted()`.  Agrees with Mathlib's noncomputable
`Inv.inv` (see `inverted_eq_inv`). -/
def inverted (M : Mat4) : Mat4 := M.det⁻¹ • M.adjugate

/-- Python's `round(q, 3)` on exact rationals: round to 3 decimal places. -/
def round3 (q : ℚ) : ℚ := ((round (q * 1000) : ℤ) : ℚ) / 1000

/-- `cam.data` of a Blender camera object: holds the orthographic scale. -/
structure CameraData where
  ortho_scale : ℚ
deriving DecidableEq

/-- A Blender camera object: world transform plus camera data. -/
structure Camera where
  matrix_world : Mat4
  data : CameraData

/-- `scene.cursor`: the 3D cursor; only its matrix is read. -/
structure Cursor where
  matrix : Mat4

/-- `context.scene`. -/
structure Scene where
  cursor : Cursor

/-- The slice of Blender's `context` that `set_ortho_scale` and the modal
operator consume. -/
structure Context where
  scene : Scene

/-- A matrix is affine when its bottom row is `(0, 0, 0, 1)`, as for every
Blender object matrix. -/
def affineBottomRow (M : Mat4) : Prop :=
  M 3 0 = 0 ∧ M 3 1 = 0 ∧ M 3 2 = 0 ∧ M 3 3 = 1

/-! ## The compensator `set_ortho_scale` -/

/-- The module-level function `set_ortho_scale(context, cam, ortho_scale)`
(src lines 97-128): if the requested scale differs from the current one
after rounding to 3 decimals, translate the camera in its local X/Y plane
so the 3D cursor keeps its fractional position in the frustum, then write
the new scale; otherwise do nothing. -/
def set_ortho_scale (context : Context) (cam : Camera) (ortho_scale : ℚ) :
    Camera :=
  let cam_ortho_scale := cam.data.ortho_scale
  let new_ortho_scale := ortho_scale
  if round3 cam_ortho_scale ≠ round3 new_ortho_scale then
    let cam_mat := cam.matrix_world
    let cursor_mat := context.scene.cursor.matrix
    -- `cam_mat.inverted() @ cursor_mat`, whose `.decompose()` location
    -- component is the last column (rows 0..2)
    let cursor_matrix_cam_space := inverted cam_mat * cursor_mat
    let cursor_offset_x := cursor_matrix_cam_space 0 3
    let cursor_offset_y := cursor_matrix_cam_space 1 3
    let cursor_perc_x := cursor_offset_x / (cam_ortho_scale / 2)
    let new_cursor_offset_x := cursor_perc_x * (new_ortho_scale / 2)
    let cam_transform_x := new_cursor_offset_x - cursor_offset_x
    let cursor_perc_y := cursor_offset_y / (cam_ortho_scale / 2)
    let new_cursor_offset_y := cursor_perc_y * (new_ortho_scale / 2)
    let cam_transform_y := new_cursor_offset_y - cursor_offset_y
    let transform_matrix := Translation (-cam_transform_x) (-cam_transform_y) 0
    { matrix_world := cam.matrix_world * transform_matrix,
      data := { ortho_scale := new_ortho_scale } }
  else
    cam

/-! ## The modal operator `CAMERA_OT_ortho_scale` -/

/-- The Blender event types the operator inspects, plus a few others
(`RET` is the Enter key, `TAB` stands for any other key). -/
inductive EventType
  | MOUSEMOVE
  | ESC
  | RIGHTMOUSE
  | SPACE
  | LEFTMOUSE
  | RET
  | TAB
  deriving DecidableEq

/-- Blender event values. -/
inductive EventValue
  | PRESS
  | RELEASE
  | NOTHING
  deriving DecidableEq

/-- The slice of a Blender `event` the operator reads. -/
structure Event where
  type : EventType
  value : EventValue
  mouse_region_x : ℤ
  shift : Bool

/-- Outcome of one `modal` step: Blender's `{'RUNNING_MODAL'}`,
`{'FINISHED'}`, `{'CANCELLED'}`. -/
inductive ModalResult
  | RUNNING_MODAL
  | FINISHED
  | CANCELLED
  deriving DecidableEq

/-- The operator's instance state: `self.cam`, `self.last_mouse_x`,
`self.init_scale`, `self.init_matrix`. -/
structure OperatorState where
  cam : Camera
  last_mouse_x : ℤ
  init_scale : ℚ
  init_matrix : Mat4

/-- Source line 64: `ortho_scale_offset = offset_x / divisor`, where
`divisor = 3000 if event.shift else 300` (line 61). -/
def ortho_scale_offset (offset_x : ℚ) ( shift : Bool) : ℚ :=
  offset_x / (if shift then 3000 else 300)

/-- `CAMERA_OT_ortho_scale.restore` (src lines 86-88): put the snapshot
scale and matrix back on the camera. -/
def restore (s : OperatorState) : Camera :=
  { matrix_world := s.init_matrix, data := { ortho_scale := s.init_scale } }

/-- `CAMERA_OT_ortho_scale.invoke` (src lines 44-55): snapshot the camera
and the pointer position.  `cam` is Blender's `context.object`. -/
def invoke (cam : Camera) (event : Event) : OperatorState :=
  { cam := cam
    last_mouse_x := event.mouse_region_x
    init_scale := cam.data.ortho_scale
    init_matrix := cam.matrix_world }

/-- `CAMERA_OT_ortho_scale.modal` (src lines 57-84): one step of the drag
session.  Returns the updated operator state (with the updated camera)
and the modal result. -/
def modal (context : Context) (s : OperatorState) (event : Event) :
    OperatorState × ModalResult :=
  if event.type = EventType.MOUSEMOVE then
    let mouse_x := event.mouse_region_x
    let offset_x : ℚ := ((mouse_x - s.last_mouse_x : ℤ) : ℚ)
    let ortho_scale := s.cam.data.ortho_scale - ortho_scale_offset offset_x event.shift
    let ortho_scale := max ortho_scale (1 / 100)
    let cam := set_ortho_scale context s.cam ortho_scale
    ({ s with cam := cam, last_mouse_x := event.mouse_region_x },
      ModalResult.RUNNING_MODAL)
  else if event.value = EventValue.PRESS then
    if event.type = EventType.ESC ∨ event.type = EventType.RIGHTMOUSE then
      ({ s with cam := restore s }, ModalResult.CANCELLED)
    else if event.type = EventType.SPACE ∨ event.type = EventType.LEFTMOUSE then
      (s, ModalResult.FINISHED)
    else
      (s, ModalResult.RUNNING_MODAL)
  else
    (s, ModalResult.RUNNING_MODAL)

/-- Fold `modal` over a list of events, keeping the operator state. -/
def runEvents (context : Context) (s : OperatorState) (events : List Event) :
    OperatorState :=
  events.foldl (fun st e => (modal context st e).1) s

/-! ## `poll` and activation -/

/-- `ob.type` values (`CAMERA` or anything else). -/
inductive ObjectKind
  | CAMERA
  | OTHER
  deriving DecidableEq

/-- `ob.data.type` values for a camera. -/
inductive CameraDataKind
  | ORTHO
  | PERSP
  | PANO
  deriving DecidableEq

/-- `space.region_3d.view_perspective` values. -/
inductive ViewPerspective
  | CAMERA
  | PERSP
  | ORTHO
  deriving DecidableEq

/-- The slice of `context.object` that `poll` reads. -/
structure BObject where
  type : ObjectKind
  data_type : CameraDataKind

/-- The slice of Blender's `context` that `poll` reads; `object` is
`None` or an object. -/
structure PollContext where
  object : Option BObject
  view_perspective : ViewPerspective

/-- `CAMERA_OT_ortho_scale.poll` (src lines 31-35): the active object is a
camera, its data is orthographic, and the viewport is in camera view. -/
def poll (ctx : PollContext) : Bool :=
  match ctx.object with
  | none => false
  | some ob =>
      decide (ob.type = ObjectKind.CAMERA) &&
      decide (ob.data_type = CameraDataKind.ORTHO) &&
      decide (ctx.view_perspective = ViewPerspective.CAMERA)

/-- Modelled from the spec: the host (Blender's operator dispatch, not part
of this repository's source) runs the operator's `invoke` only when `poll`
returns true; otherwise activation is refused with no state transition and
no effect (`none`). -/
def tryInvoke (ctx : PollContext) (cam : Camera) (event : Event) :
    Option OperatorState :=
  if poll ctx then some (invoke cam event) else none

/-! ## Anchor position relative to the frustum -/

/-- The anchor (3D cursor) in camera space: the translation column of
`inverted(cam.matrix_world) @ cursor.matrix`, which is what
`decompose()` returns as its location component. -/
def localAnchor (context : Context) (cam : Camera) (i : Fin 4) : ℚ :=
  (inverted cam.matrix_world * context.scene.cursor.matrix) i 3

/-- The anchor's camera-local X offset as a fraction of the per-axis
half-extent `ortho_scale / 2` (the source's `cursor_perc_x`). -/
def frac_x (context : Context) (cam : Camera) : ℚ :=
  localAnchor context cam 0 / (cam.data.ortho_scale / 2)

/-- Same as `frac_x` on the local Y axis (the source's `cursor_perc_y`). -/
def frac_y (context : Context) (cam : Camera) : ℚ :=
  localAnchor context cam 1 / (cam.data.ortho_scale / 2)

/-- The source's `cam_transform_x` (line 116): the camera's local-X move
that keeps the cursor's fractional position at the new scale `n`. -/
def cam_transform_x (context : Context) (cam : Camera) (n : ℚ) : ℚ :=
  localAnchor context cam 0 / (cam.data.ortho_scale / 2) * (n / 2) -
    localAnchor context cam 0

/-- The source's `cam_transform_y` (line 123). -/
def cam_transform_y (context : Context) (cam : Camera) (n : ℚ) : ℚ :=
  localAnchor context cam 1 / (cam.data.ortho_scale / 2) * (n / 2) -
    localAnchor context cam 1

/-! ## Claim-side (spec-worded) definitions for the compensator algorithm -/

/-- X coordinate of a 4x4 matrix applied, as an affine map, to the 3D
point `(px, py, pz)` (homogeneous coordinate 1). -/
def applyAffineX (M : Mat4) (px py pz : ℚ) : ℚ :=
  M 0 0 * px + M 0 1 * py + M 0 2 * pz + M 0 3

/-- Y coordinate of a 4x4 matrix applied, as an affine map, to the 3D
point `(px, py, pz)` (homogeneous coordinate 1). -/
def applyAffineY (M : Mat4) (px py pz : ℚ) : ℚ :=
  M 1 0 * px + M 1 1 * py + M 1 2 * pz + M 1 3

/-- The claim's `localAnchor.x`: the inverse camera transform applied to
the anchor world point (the cursor matrix's translation component). -/
def specLocalX (context : Context) (cam : Camera) : ℚ :=
  applyAffineX (inverted cam.matrix_world)
    (context.scene.cursor.matrix 0 3) (context.scene.cursor.matrix 1 3)
    (context.scene.cursor.matrix 2 3)

/-- The claim's `localAnchor.y`. -/
def specLocalY (context : Context) (cam : Camera) : ℚ :=
  applyAffineY (inverted cam.matrix_world)
    (context.scene.cursor.matrix 0 3) (context.scene.cursor.matrix 1 3)
    (context.scene.cursor.matrix 2 3)

/-- The claim's `delta.x = fracX * (newScale/2) - localAnchor.x`. -/
def specDeltaX (context : Context) (cam : Camera) (n : ℚ) : ℚ :=
  specLocalX context cam / (cam.data.ortho_scale / 2) * (n / 2) -
    specLocalX context cam

/-- The claim's `delta.y`. -/
def specDeltaY (context : Context) (cam : Camera) (n : ℚ) : ℚ :=
  specLocalY context cam / (cam.data.ortho_scale / 2) * (n / 2) -
    specLocalY context cam

/-! ## Concrete inputs used by the witnesses and counterexamples -/

/-- A context whose 3D cursor sits at `(1, 2, 5)`. -/
def wContext : Context :=
  { scene := { cursor := { matrix := Translation 1 2 5 } } }

/-- A camera at the world origin with orthographic scale 2. -/
def wCam : Camera := { matrix_world := 1, data := { ortho_scale := 2 } }

/-- A camera whose orthographic scale `6/625 = 0.0096` is already below
the `0.01` floor. -/
def camLow : Camera := { matrix_world := 1, data := { ortho_scale := 6 / 625 } }

/-- The event that starts a session (only `mouse_region_x` is read). -/
def evStart : Event :=
  { type := EventType.TAB, value := EventValue.NOTHING,
    mouse_region_x := 0, shift := false }

/-- A pointer move with zero offset. -/
def evMoveZero : Event :=
  { type := EventType.MOUSEMOVE, value := EventValue.NOTHING,
    mouse_region_x := 0, shift := false }

/-- A pointer move 300 pixels to the right (a large positive offset). -/
def evMoveBig : Event :=
  { type := EventType.MOUSEMOVE, value := EventValue.NOTHING,
    mouse_region_x := 300, shift := false }

/-- A cancel input: escape key press. -/
def evCancel : Event :=
  { type := EventType.ESC, value := EventValue.PRESS,
    mouse_region_x := 0, shift := false }

/-- A confirm input: left click. -/
def evConfirm : Event :=
  { type := EventType.LEFTMOUSE, value := EventValue.PRESS,
    mouse_region_x := 0, shift := false }

/-- An Enter key press (advertised as Confirm by the status text, but not
handled by `modal`). -/
def evRet : Event :=
  { type := EventType.RET, value := EventValue.PRESS,
    mouse_region_x := 0, shift := false }

/-- A session started on `camLow`. -/
def stateLow : OperatorState := invoke camLow evStart

/-- A session started on `wCam`. -/
def wState : OperatorState := invoke wCam evStart

/-- A poll context satisfying the activation precondition. -/
def ctxGood : PollContext :=
  { object := some { type := ObjectKind.CAMERA,
                     data_type := CameraDataKind.ORTHO },
    view_perspective := ViewPerspective.CAMERA }

/-- A poll context violating the precondition (perspective camera data). -/
def ctxBad : PollContext :=
  { object := some { type := ObjectKind.CAMERA,
                     data_type := CameraDataKind.PERSP },
    view_perspective := ViewPerspective.CAMERA }

/-! ## Matrix helper lemmas -/

/-- `inverted` agrees with Mathlib's matrix inverse. -/
theorem inverted_eq_inv (M : Mat4) : inverted M = M⁻¹ := by
  rw [Matrix.inv_def, Ring.inverse_eq_inv]
  rfl

theorem Translation_mul (a b c d e f : ℚ) :
    Translation a b c * Translation d e f =
      Translation (a + d) (b + e) (c + f) := by
  ext i j
  fin_cases i <;> fin_cases j <;>
    simp [Translation, Matrix.mul_apply, Fin.sum_univ_four] <;> ring

theorem Translation_zero : Translation 0 0 0 = 1 := by
  ext i j
  fin_cases i <;> fin_cases j <;>
    simp [Translation, Matrix.one_apply]

theorem Translation_mul_neg (a b c : ℚ) :
    Translation a b c * Translation (-a) (-b) (-c) = 1 := by
  rw [Translation_mul]
  simp [Translation_zero]

theorem Translation_inv (a b c : ℚ) :
    (Translation a b c)⁻¹ = Translation (-a) (-b) (-c) :=
  Matrix.inv_eq_right_inv (Translation_mul_neg a b c)

/-- For an invertible affine matrix, the inverse's bottom row is that of
the identity. -/
theorem inv_bottomRow (M : Mat4) (hdet : IsUnit M.det)
    (h : affineBottomRow M) : ∀ j, M⁻¹ 3 j = (1 : Mat4) 3 j := by
  intro j
  obtain ⟨h0, h1, h2, h3⟩ := h
  have hmul := Matrix.mul_nonsing_inv M hdet
  have hentry := congrFun (congrFun hmul 3) j
  rw [Matrix.mul_apply, Fin.sum_univ_four, h0, h1, h2, h3] at hentry
  simpa using hentry

/-- Left-multiplying by a matrix whose bottom row is the identity's keeps
the bottom-right entry. -/
theorem mul_bottom_entry (M C : Mat4) (h : ∀ j, M 3 j = (1 : Mat4) 3 j) :
    (M * C) 3 3 = C 3 3 := by
  rw [Matrix.mul_apply, Fin.sum_univ_four, h 0, h 1, h 2, h 3]
  simp [Matrix.one_apply]

theorem Translation_mul_entry_x (a b c : ℚ) (L : Mat4) :
    (Translation a b c * L) 0 3 = L 0 3 + a * L 3 3 := by
  rw [Matrix.mul_apply, Fin.sum_univ_four]
  simp [Translation]

theorem Translation_mul_entry_y (a b c : ℚ) (L : Mat4) :
    (Translation a b c * L) 1 3 = L 1 3 + b * L 3 3 := by
  rw [Matrix.mul_apply, Fin.sum_univ_four]
  simp [Translation]

/-! ## `set_ortho_scale` case analysis -/

/-- Write case of `set_ortho_scale`: when the rounded scales differ, the
camera gets the compensating translation and the new scale. -/
theorem set_ortho_scale_of_ne (context : Context) (cam : Camera) (n : ℚ)
    (hr : round3 cam.data.ortho_scale ≠ round3 n) :
    set_ortho_scale context cam n =
      { matrix_world := cam.matrix_world *
          Translation (-cam_transform_x context cam n)
            (-cam_transform_y context cam n) 0,
        data := { ortho_scale := n } } := by
  simp only [set_ortho_scale, cam_transform_x, cam_transform_y, localAnchor]
  rw [if_pos hr]

/-- Skip case of `set_ortho_scale`: when the rounded scales agree, the
camera is untouched. -/
theorem set_ortho_scale_of_eq (context : Context) (cam : Camera) (n : ℚ)
    (hr : round3 cam.data.ortho_scale = round3 n) :
    set_ortho_scale context cam n = cam := by
  simp only [set_ortho_scale]
  rw [if_neg]
  simp [hr]

/-- The scale written by `set_ortho_scale` is the requested one or the
camera's old one. -/
theorem set_ortho_scale_scale_cases (context : Context) (cam : Camera)
    (n : ℚ) :
    (set_ortho_scale context cam n).data.ortho_scale = n ∨
    (set_ortho_scale context cam n).data.ortho_scale =
      cam.data.ortho_scale := by
  by_cases hr : round3 cam.data.ortho_scale = round3 n
  · right
    rw [set_ortho_scale_of_eq context cam n hr]
  · left
    rw [set_ortho_scale_of_ne context cam n hr]

/-! ## `modal` case analysis -/

/-- `modal` on a `MOUSEMOVE` event (src lines 59-71). -/
theorem modal_mousemove (context : Context) (s : OperatorState) (e : Event)
    (he : e.type = EventType.MOUSEMOVE) :
    modal context s e =
      ({ s with
          cam := set_ortho_scale context s.cam
            (max (s.cam.data.ortho_scale -
                ortho_scale_offset ((e.mouse_region_x - s.last_mouse_x : ℤ) : ℚ)
                  e.shift)
              (1 / 100)),
          last_mouse_x := e.mouse_region_x },
        ModalResult.RUNNING_MODAL) := by
  simp only [modal, he, if_pos]

/-- `modal` on a cancel input (src lines 75-78). -/
theorem modal_cancel (context : Context) (s : OperatorState) (e : Event)
    (hv : e.value = EventValue.PRESS)
    (ht : e.type = EventType.ESC ∨ e.type = EventType.RIGHTMOUSE) :
    modal context s e =
      ({ s with cam := restore s }, ModalResult.CANCELLED) := by
  rcases ht with h | h <;> simp [modal, h, hv]

/-- `modal` on a confirm input (src lines 80-82). -/
theorem modal_confirm (context : Context) (s : OperatorState) (e : Event)
    (hv : e.value = EventValue.PRESS)
    (ht : e.type = EventType.SPACE ∨ e.type = EventType.LEFTMOUSE) :
    modal context s e = (s, ModalResult.FINISHED) := by
  rcases ht with h | h <;> simp [modal, h, hv]

/-- Every `modal` step keeps the session snapshot (`init_scale`,
`init_matrix`). -/
theorem modal_keeps_snapshot (context : Context) (s : OperatorState)
    (e : Event) :
    (modal context s e).1.init_scale = s.init_scale ∧
    (modal context s e).1.init_matrix = s.init_matrix := by
  unfold modal
  split
  · exact ⟨rfl, rfl⟩
  · split
    · split
      · exact ⟨rfl, rfl⟩
      · split
        · exact ⟨rfl, rfl⟩
        · exact ⟨rfl, rfl⟩
    · exact ⟨rfl, rfl⟩

theorem runEvents_cons (context : Context) (s : OperatorState) (e : Event)
    (es : List Event) :
    runEvents context s (e :: es) =
      runEvents context (modal context s e).1 es := rfl

/-- Any event sequence keeps the session snapshot. -/
theorem runEvents_keeps_snapshot (context : Context) (s : OperatorState)
    (events : List Event) :
    (runEvents context s events).init_scale = s.init_scale ∧
    (runEvents context s events).init_matrix = s.init_matrix := by
  induction events generalizing s with
  | nil => exact ⟨rfl, rfl⟩
  | cons e es ih =>
      rw [runEvents_cons]
      obtain ⟨h1, h2⟩ := modal_keeps_snapshot context s e
      obtain ⟨h3, h4⟩ := ih (modal context s e).1
      exact ⟨h3.trans h1, h4.trans h2⟩

/-- `set_ortho_scale` keeps the scale at or above the floor when both the
current scale and the requested one are. -/
theorem set_ortho_scale_floor (context : Context) (cam : Camera) (n : ℚ)
    (h0 : 1 / 100 ≤ cam.data.ortho_scale) (hn : 1 / 100 ≤ n) :
    1 / 100 ≤ (set_ortho_scale context cam n).data.ortho_scale := by
  rcases set_ortho_scale_scale_cases context cam n with h | h <;> rw [h] <;>
    assumption

/-! ## Claims -/

/-- C1. Anchor invariance: for an invertible affine camera transform, a
positive current scale, a positive requested scale and an affine anchor
(cursor) matrix, `set_ortho_scale` leaves the anchor's camera-local offset
divided by the per-axis half-extent unchanged on both local axes. -/
theorem anchor_invariance (context : Context) (cam : Camera) (n : ℚ)
    (hdet : cam.matrix_world.det ≠ 0)
    (haff : affineBottomRow cam.matrix_world)
    (hcursor : context.scene.cursor.matrix 3 3 = 1)
    (hc : 0 < cam.data.ortho_scale) (hn : 0 < n) :
    frac_x context (set_ortho_scale context cam n) = frac_x context cam ∧
    frac_y context (set_ortho_scale context cam n) = frac_y context cam := by
  by_cases hr : round3 cam.data.ortho_scale = round3 n
  · rw [set_ortho_scale_of_eq context cam n hr]
    exact ⟨rfl, rfl⟩
  · rw [set_ortho_scale_of_ne context cam n hr]
    have hdetU : IsUnit cam.matrix_world.det := isUnit_iff_ne_zero.mpr hdet
    have hrow := inv_bottomRow cam.matrix_world hdetU haff
    have hL33 :
        (cam.matrix_world⁻¹ * context.scene.cursor.matrix) 3 3 = 1 := by
      rw [mul_bottom_entry _ _ hrow, hcursor]
    have hcne : cam.data.ortho_scale ≠ 0 := ne_of_gt hc
    have hnne : n ≠ 0 := ne_of_gt hn
    constructor
    · simp only [frac_x, localAnchor, cam_transform_x, inverted_eq_inv,
        Matrix.mul_inv_rev, Translation_inv, neg_neg, neg_zero]
      rw [Matrix.mul_assoc, Translation_mul_entry_x, hL33, mul_one]
      field_simp
      ring
    · simp only [frac_y, localAnchor, cam_transform_x, cam_transform_y,
        inverted_eq_inv, Matrix.mul_inv_rev, Translation_inv, neg_neg,
        neg_zero]
      rw [Matrix.mul_assoc, Translation_mul_entry_y, hL33, mul_one]
      field_simp
      ring

/-- Witness for C1 at a concrete camera and cursor. -/
theorem anchor_invariance_witness :
    frac_x wContext (set_ortho_scale wContext wCam 1) = frac_x wContext wCam ∧
    frac_y wContext (set_ortho_scale wContext wCam 1) =
      frac_y wContext wCam :=
  anchor_invariance wContext wCam 1
    (by simp [wCam])
    (by constructor <;> [skip; constructor] <;> [skip; skip; constructor] <;>
      simp [wCam, Matrix.one_apply])
    (by simp [wContext, Translation])
    (by norm_num [wCam])
    (by norm_num)

/-- C2. Compensator algorithm: when the rounded scales differ, the code's
camera-space cursor offset is the inverse camera transform applied (as an
affine map) to the cursor's world position, and `set_ortho_scale` composes
the translation by the negated per-axis deltas onto the camera transform
and writes the new scale. -/
theorem compensator_algorithm (context : Context) (cam : Camera) (n : ℚ)
    (hr : round3 cam.data.ortho_scale ≠ round3 n)
    (hcursor : context.scene.cursor.matrix 3 3 = 1) :
    set_ortho_scale context cam n =
      { matrix_world := cam.matrix_world *
          Translation (-specDeltaX context cam n) (-specDeltaY context cam n)
            0,
        data := { ortho_scale := n } } := by
  have hx : localAnchor context cam 0 = specLocalX context cam := by
    simp only [localAnchor, specLocalX, applyAffineX, Matrix.mul_apply,
      Fin.sum_univ_four, hcursor]
    ring
  have hy : localAnchor context cam 1 = specLocalY context cam := by
    simp only [localAnchor, specLocalY, applyAffineY, Matrix.mul_apply,
      Fin.sum_univ_four, hcursor]
    ring
  rw [set_ortho_scale_of_ne context cam n hr]
  rw [show cam_transform_x context cam n = specDeltaX context cam n by
        rw [cam_transform_x, specDeltaX, hx],
      show cam_transform_y context cam n = specDeltaY context cam n by
        rw [cam_transform_y, specDeltaY, hy]]

/-- Witness for C2: the camera at the origin with scale 2, rescaled to 1. -/
theorem compensator_algorithm_witness :
    set_ortho_scale wContext wCam 1 =
      { matrix_world := wCam.matrix_world *
          Translation (-specDeltaX wContext wCam 1)
            (-specDeltaY wContext wCam 1) 0,
        data := { ortho_scale := 1 } } :=
  compensator_algorithm wContext wCam 1
    (by norm_num [wCam, round3])
    (by simp [wContext, Translation])

/-- C5. No-op stability: when the requested scale rounds (to 3 decimals)
to the same value as the current scale, `set_ortho_scale` returns the
camera unchanged, and a repeated identical call is likewise a no-op. -/
theorem noop_stability (context : Context) (cam : Camera) (n : ℚ)
    (h : round3 cam.data.ortho_scale = round3 n) :
    set_ortho_scale context cam n = cam ∧
    set_ortho_scale context (set_ortho_scale context cam n) n = cam := by
  have h1 := set_ortho_scale_of_eq context cam n h
  exact ⟨h1, by rw [h1, h1]⟩

/-- Witness for C5: requesting `2.0001` on a camera at scale `2`. -/
theorem noop_stability_witness :
    set_ortho_scale wContext wCam (20001 / 10000) = wCam ∧
    set_ortho_scale wContext (set_ortho_scale wContext wCam (20001 / 10000))
      (20001 / 10000) = wCam :=
  noop_stability wContext wCam (20001 / 10000)
    (by norm_num [wCam, round3, round_eq])

/-- C6. Pointer-move step: on a `MOUSEMOVE` event, `modal` computes the
pointer offset against `last_mouse_x`, divides by 3000 when shift is held
and 300 otherwise, clamps the target scale at `0.01` below the camera's
current scale minus the delta, invokes `set_ortho_scale` on the current
camera with that target, stores the pointer position, and keeps running. -/
theorem pointer_move_step (context : Context) (s : OperatorState) (e : Event)
    (he : e.type = EventType.MOUSEMOVE) :
    modal context s e =
      ({ s with
          cam := set_ortho_scale context s.cam
            (max (s.cam.data.ortho_scale -
                ((e.mouse_region_x - s.last_mouse_x : ℤ) : ℚ) /
                  (if e.shift then 3000 else 300))
              (1 / 100)),
          last_mouse_x := e.mouse_region_x },
        ModalResult.RUNNING_MODAL) := by
  simp only [modal, ortho_scale_offset, he, if_pos]

/-- Witness for C6 at a concrete state and event. -/
theorem pointer_move_step_witness :
    modal wContext wState evMoveBig =
      ({ wState with
          cam := set_ortho_scale wContext wState.cam
            (max (wState.cam.data.ortho_scale -
                ((evMoveBig.mouse_region_x - wState.last_mouse_x : ℤ) : ℚ) /
                  (if evMoveBig.shift then 3000 else 300))
              (1 / 100)),
          last_mouse_x := evMoveBig.mouse_region_x },
        ModalResult.RUNNING_MODAL) :=
  pointer_move_step wContext wState evMoveBig rfl

/-- C3 (amended). Scale floor: in a session whose camera scale is at or
above `0.01`, every sequence of pointer-move events keeps the camera's
scale at or above `0.01`.  (The claim's unconditional floor, and its claim
that the floor is enforced before the restore-on-cancel write, fail: see
the counterexample.) -/
theorem scale_floor_amended (context : Context) (s : OperatorState)
    (events : List Event)
    (hmv : ∀ e ∈ events, e.type = EventType.MOUSEMOVE)
    (h0 : 1 / 100 ≤ s.cam.data.ortho_scale) :
    1 / 100 ≤ (runEvents context s events).cam.data.ortho_scale := by
  induction events generalizing s with
  | nil => exact h0
  | cons e es ih =>
      rw [runEvents_cons]
      refine ih (modal context s e).1
        (fun x hx => hmv x (List.mem_cons_of_mem e hx)) ?_
      rw [modal_mousemove context s e (hmv e (List.mem_cons_self e es))]
      exact set_ortho_scale_floor context s.cam _ h0 (le_max_right _ _)

/-- Witness for the amended C3: two pointer moves starting at scale 2. -/
theorem scale_floor_amended_witness :
    1 / 100 ≤
      (runEvents wContext wState [evMoveZero, evMoveBig]).cam.data.ortho_scale :=
  scale_floor_amended wContext wState [evMoveZero, evMoveBig] (by decide)
    (by norm_num [wState, invoke, wCam])

/-- Counterexample to C3 as stated.  A session on a camera at scale
`6/625 = 0.0096` (below the floor): a pointer-move event with a large
positive offset leaves the scale at `0.0096 < 0.01`, because the clamped
target `0.01` rounds to the same 3-decimal value as `0.0096`, so
`set_ortho_scale` skips the write.  Moreover the restore-on-cancel write
is not clamped: it writes the snapshot `0.0096 < 0.01` verbatim. -/
theorem scale_floor_counterexample :
    (modal wContext stateLow evMoveBig).1.cam.data.ortho_scale < 1 / 100 ∧
    (restore stateLow).data.ortho_scale < 1 / 100 := by
  constructor
  · rw [modal_mousemove wContext stateLow evMoveBig rfl]
    show (set_ortho_scale wContext stateLow.cam _).data.ortho_scale < 1 / 100
    rw [set_ortho_scale_of_eq]
    · norm_num [stateLow, invoke, camLow]
    · show round3 stateLow.cam.data.ortho_scale = round3 (max
        (stateLow.cam.data.ortho_scale -
          ortho_scale_offset
            ((evMoveBig.mouse_region_x - stateLow.last_mouse_x : ℤ) : ℚ)
            evMoveBig.shift)
        (1 / 100))
      norm_num [stateLow, invoke, camLow, evMoveBig, evStart,
        ortho_scale_offset, round3, round_eq]
  · norm_num [restore, stateLow, invoke, camLow]

/-- C4. Cancel restores exactly: a session started on `cam`, after any
sequence of pointer-move events, ends a cancel input (escape or right
click) with the camera restored to its initial scale and transform, and
terminates with `CANCELLED`. -/
theorem cancel_restores (context : Context) (cam : Camera) (e0 : Event)
    (events : List Event) (e : Event)
    (_hmv : ∀ x ∈ events, x.type = EventType.MOUSEMOVE)
    (hv : e.value = EventValue.PRESS)
    (ht : e.type = EventType.ESC ∨ e.type = EventType.RIGHTMOUSE) :
    (modal context (runEvents context (invoke cam e0) events) e).1.cam =
      cam ∧
    (modal context (runEvents context (invoke cam e0) events) e).2 =
      ModalResult.CANCELLED := by
  rw [modal_cancel context _ e hv ht]
  obtain ⟨h1, h2⟩ := runEvents_keeps_snapshot context (invoke cam e0) events
  refine ⟨?_, rfl⟩
  show restore (runEvents context (invoke cam e0) events) = cam
  rw [restore, h1, h2]
  rfl

/-- Witness for C4: one pointer move, then escape. -/
theorem cancel_restores_witness :
    (modal wContext
        (runEvents wContext (invoke wCam evStart) [evMoveZero]) evCancel).1.cam
      = wCam ∧
    (modal wContext
        (runEvents wContext (invoke wCam evStart) [evMoveZero]) evCancel).2
      = ModalResult.CANCELLED :=
  cancel_restores wContext wCam evStart [evMoveZero] evCancel (by decide) rfl
    (Or.inl rfl)

/-- C7. Confirm keeps the last applied state: after any sequence of
pointer-move events, a confirm input (left click or space) leaves the
whole operator state — in particular the camera's last applied scale and
transform — untouched and terminates with `FINISHED`; it writes nothing
to the camera. -/
theorem confirm_keeps_last (context : Context) (cam : Camera) (e0 : Event)
    (events : List Event) (e : Event)
    (_hmv : ∀ x ∈ events, x.type = EventType.MOUSEMOVE)
    (hv : e.value = EventValue.PRESS)
    (ht : e.type = EventType.SPACE ∨ e.type = EventType.LEFTMOUSE) :
    modal context (runEvents context (invoke cam e0) events) e =
      (runEvents context (invoke cam e0) events, ModalResult.FINISHED) :=
  modal_confirm context _ e hv ht

/-- Witness for C7: one pointer move, then left click. -/
theorem confirm_keeps_last_witness :
    modal wContext (runEvents wContext (invoke wCam evStart) [evMoveBig])
        evConfirm =
      (runEvents wContext (invoke wCam evStart) [evMoveBig],
        ModalResult.FINISHED) :=
  confirm_keeps_last wContext wCam evStart [evMoveBig] evConfirm (by decide)
    rfl (Or.inr rfl)

/-- C8. Divisor switch: for any pointer offset, the scale delta with the
precision (shift) modifier held is exactly one tenth of the delta without
it. -/
theorem divisor_switch (offset_x : ℚ) :
    ortho_scale_offset offset_x true = ortho_scale_offset offset_x false / 10 := by
  show offset_x / 3000 = offset_x / 300 / 10
  ring

/-- `poll` succeeds exactly when the active object is a camera with
orthographic data and the viewport is in camera view. -/
theorem poll_iff (ctx : PollContext) :
    poll ctx = true ↔
      ∃ ob, ctx.object = some ob ∧ ob.type = ObjectKind.CAMERA ∧
        ob.data_type = CameraDataKind.ORTHO ∧
        ctx.view_perspective = ViewPerspective.CAMERA := by
  cases h : ctx.object with
  | none => simp [poll, h]
  | some ob =>
      simp [poll, h, and_assoc]

/-- C9. Activation refusal: activation succeeds (an operator state comes
to exist) if and only if the active object is an orthographic camera and
the viewport is in camera view; when the precondition fails the
activation is refused with no state and no effect. -/
theorem activation_refusal (ctx : PollContext) (cam : Camera) (e : Event) :
    ((tryInvoke ctx cam e).isSome = true ↔
      ∃ ob, ctx.object = some ob ∧ ob.type = ObjectKind.CAMERA ∧
        ob.data_type = CameraDataKind.ORTHO ∧
        ctx.view_perspective = ViewPerspective.CAMERA) ∧
    (poll ctx = false → tryInvoke ctx cam e = none) := by
  constructor
  · rw [← poll_iff]
    unfold tryInvoke
    by_cases hp : poll ctx = true <;> simp [hp]
  · intro hp
    unfold tryInvoke
    rw [hp]
    simp

/-- Witness for C9: refusal on a perspective camera, success on an
orthographic one. -/
theorem activation_refusal_witness :
    tryInvoke ctxBad wCam evStart = none ∧
    (tryInvoke ctxGood wCam evStart).isSome = true :=
  ⟨(activation_refusal ctxBad wCam evStart).2 (by decide),
   (activation_refusal ctxGood wCam evStart).1.mpr
     ⟨{ type := ObjectKind.CAMERA, data_type := CameraDataKind.ORTHO },
       rfl, rfl, rfl, rfl⟩⟩

/-- C10. Unrecognized inputs are ignored: a press event whose type is none
of `ESC`, `RIGHTMOUSE`, `SPACE`, `LEFTMOUSE` (nor a pointer move — in
Blender a `MOUSEMOVE` event is never a press) leaves the operator state,
hence the camera and all session fields, untouched and keeps the modal
running.  In particular this holds for the Enter key, despite the status
text advertising it as Confirm. -/
theorem unrecognized_input_ignored (context : Context) (s : OperatorState)
    (e : Event) (hv : e.value = EventValue.PRESS)
    (hmm : e.type ≠ EventType.MOUSEMOVE)
    (h1 : e.type ≠ EventType.ESC) (h2 : e.type ≠ EventType.RIGHTMOUSE)
    (h3 : e.type ≠ EventType.SPACE) (h4 : e.type ≠ EventType.LEFTMOUSE) :
    modal context s e = (s, ModalResult.RUNNING_MODAL) := by
  simp [modal, hv, hmm, h1, h2, h3, h4]

/-- Witness for C10: an Enter key press is ignored. -/
theorem unrecognized_input_ignored_witness :
    modal wContext wState evRet = (wState, ModalResult.RUNNING_MODAL) :=
  unrecognized_input_ignored wContext wState evRet rfl (by decide) (by decide)
    (by decide) (by decide) (by decide)
